import Mathlib

/-!
Verification of the LAN sync core of the hands-free point-of-sale
repository (`src-tauri/src/lan_sync/{types,server,client}.rs`).

The Rust code is shallowly embedded: JSON values are an inductive `Json`
type; serde's internally tagged serialization of `LanMessage`
(`#[serde(tag = "type", rename_all = "snake_case")]`) is `encodeLanMessage`
and `decodeLanMessage`; the server handshake, broadcast path and the
Tauri command layer become pure functions over explicit state, with the
network modelled as explicit frame parameters.
-/

namespace LanSync

/-- JSON values (`serde_json::Value`). Numbers are restricted to `Nat`:
the only number this protocol layer itself produces is the
`connectedClients` count (a `usize`); order payloads are passed through
verbatim whatever their shape. -/
inductive Json where
  | null : Json
  | bool (b : Bool) : Json
  | num (n : Nat) : Json
  | str (s : String) : Json
  | arr (xs : List Json) : Json
  | obj (fields : List (String × Json)) : Json

/-- `DeviceType` from `types.rs` (`#[serde(rename_all = "lowercase")]`). -/
inductive DeviceType where
  | pos : DeviceType
  | kds : DeviceType
  | bds : DeviceType
  | manager : DeviceType
  deriving DecidableEq

/-- `ServerInfo` from `types.rs` (`#[serde(rename_all = "camelCase")]`). -/
structure ServerInfo where
  server_id : String
  tenant_id : String
  connected_clients : Nat
  server_time : String
  deriving DecidableEq

/-- `LanMessage` from `types.rs`: the eight tagged variants. -/
inductive LanMessage where
  | orderCreated (order : Json) (kitchen_order : Json) : LanMessage
  | orderStatusUpdate (order_id : String) (status : String) (updated_at : String) : LanMessage
  | syncState (orders : List Json) : LanMessage
  | ping : LanMessage
  | pong : LanMessage
  | register (device_type : DeviceType) (tenant_id : String) : LanMessage
  | registered (client_id : String) (server_info : ServerInfo) : LanMessage
  | error (message : String) (code : String) : LanMessage

/-- `ClientInfo` from `types.rs`. -/
structure ClientInfo where
  client_id : String
  device_type : DeviceType
  connected_at : String
  ip_address : String
  deriving DecidableEq

/-- `LanServerStatus` from `types.rs`. -/
structure LanServerStatus where
  is_running : Bool
  port : Nat
  ip_address : Option String
  mdns_registered : Bool
  connected_clients : List ClientInfo
  started_at : Option String
  deriving DecidableEq

/-- `LanClientStatus` from `types.rs`. -/
structure LanClientStatus where
  is_connected : Bool
  server_address : Option String
  server_info : Option ServerInfo
  connected_at : Option String
  device_type : DeviceType
  deriving DecidableEq

/-- `LAN_SYNC_PORT` from `types.rs`. -/
def LAN_SYNC_PORT : Nat := 3847

/-- Serialization of `DeviceType` (serde `rename_all = "lowercase"`). -/
def encodeDeviceType : DeviceType → Json
  | .pos => .str "pos"
  | .kds => .str "kds"
  | .bds => .str "bds"
  | .manager => .str "manager"

/-- Deserialization of `DeviceType`. -/
def decodeDeviceType : Json → Option DeviceType
  | .str "pos" => some .pos
  | .str "kds" => some .kds
  | .str "bds" => some .bds
  | .str "manager" => some .manager
  | _ => none

/-- Field lookup in a JSON object (first binding wins, as in serde). -/
def lookupJson (k : String) : List (String × Json) → Option Json
  | [] => none
  | (k2, v) :: rest => if k2 = k then some v else lookupJson k rest

/-- Serialization of `ServerInfo` (serde `rename_all = "camelCase"`). -/
def encodeServerInfo (si : ServerInfo) : Json :=
  .obj [("serverId", .str si.server_id), ("tenantId", .str si.tenant_id),
        ("connectedClients", .num si.connected_clients),
        ("serverTime", .str si.server_time)]

/-- Deserialization of `ServerInfo`. -/
def decodeServerInfo (j : Json) : Option ServerInfo :=
  match j with
  | .obj fields =>
    match lookupJson "serverId" fields, lookupJson "tenantId" fields,
          lookupJson "connectedClients" fields, lookupJson "serverTime" fields with
    | some (.str sid), some (.str tid), some (.num cc), some (.str st) =>
      some ⟨sid, tid, cc, st⟩
    | _, _, _, _ => none
  | _ => none

/-- Wire encoding of `LanMessage`: serde internal tagging with tag field
`"type"` and snake_case variant names; field names are the Rust field
names (no `rename_all` on the variant fields). -/
def encodeLanMessage : LanMessage → Json
  | .orderCreated o k =>
    .obj [("type", .str "order_created"), ("order", o), ("kitchen_order", k)]
  | .orderStatusUpdate oid st ua =>
    .obj [("type", .str "order_status_update"), ("order_id", .str oid),
          ("status", .str st), ("updated_at", .str ua)]
  | .syncState os =>
    .obj [("type", .str "sync_state"), ("orders", .arr os)]
  | .ping => .obj [("type", .str "ping")]
  | .pong => .obj [("type", .str "pong")]
  | .register dt tid =>
    .obj [("type", .str "register"), ("device_type", encodeDeviceType dt),
          ("tenant_id", .str tid)]
  | .registered cid si =>
    .obj [("type", .str "registered"), ("client_id", .str cid),
          ("server_info", encodeServerInfo si)]
  | .error m c =>
    .obj [("type", .str "error"), ("message", .str m), ("code", .str c)]

/-- Wire decoding of `LanMessage` (`serde_json::from_str::<LanMessage>`):
dispatch on the `"type"` tag, then read the variant fields by name.
An unknown tag, a missing tag or a non-object is a decode failure. -/
def decodeLanMessage (j : Json) : Option LanMessage :=
  match j with
  | .obj fields =>
    match lookupJson "type" fields with
    | some (.str tag) =>
      if tag = "order_created" then
        match lookupJson "order" fields, lookupJson "kitchen_order" fields with
        | some o, some k => some (.orderCreated o k)
        | _, _ => none
      else if tag = "order_status_update" then
        match lookupJson "order_id" fields, lookupJson "status" fields,
              lookupJson "updated_at" fields with
        | some (.str oid), some (.str st), some (.str ua) =>
          some (.orderStatusUpdate oid st ua)
        | _, _, _ => none
      else if tag = "sync_state" then
        match lookupJson "orders" fields with
        | some (.arr os) => some (.syncState os)
        | _ => none
      else if tag = "ping" then some .ping
      else if tag = "pong" then some .pong
      else if tag = "register" then
        match lookupJson "device_type" fields, lookupJson "tenant_id" fields with
        | some dj, some (.str tid) =>
          match decodeDeviceType dj with
          | some dt => some (.register dt tid)
          | none => none
        | _, _ => none
      else if tag = "registered" then
        match lookupJson "client_id" fields, lookupJson "server_info" fields with
        | some (.str cid), some sj =>
          match decodeServerInfo sj with
          | some si => some (.registered cid si)
          | none => none
        | _, _ => none
      else if tag = "error" then
        match lookupJson "message" fields, lookupJson "code" fields with
        | some (.str m), some (.str c) => some (.error m c)
        | _, _ => none
      else none
    | _ => none
  | _ => none

/-- One item produced by `ws_receiver.next().await`:
`text` is `Some(Ok(Message::Text(_)))` with the body parsed as JSON,
`close` is `Some(Ok(Message::Close(_)))`, `other` covers the remaining
`Some(Ok(_))` frame kinds, `failed` is `Some(Err(_))`. A stream that
ended (`None`) is modelled by `Option.none` around `WsItem`. -/
inductive WsItem where
  | text (j : Json) : WsItem
  | close : WsItem
  | other : WsItem
  | failed : WsItem

/-- `ClientSession` from `server.rs`. The `tx` field (a clone of the shared
broadcast sender) carries no per-session state and is omitted;
`connected_at` is kept as its rendered timestamp string. -/
structure ClientSession where
  client_id : String
  device_type : DeviceType
  connected_at : String
  ip_address : String
  deriving DecidableEq

/-- The server's client map `HashMap<String, ClientSession>`, as an
association list keyed by `client_id`. -/
def Registry := List (String × ClientSession)

/-- `HashMap::insert`: the new binding replaces any existing binding of
the same key. -/
def insertSession (k : String) (v : ClientSession) (r : Registry) : Registry :=
  (k, v) :: r.filter (fun p => p.1 ≠ k)

/-- Outcome of the pre-admission phase of `handle_connection`:
the replies sent to the peer, the registry after the phase, and whether
the connection was admitted (inserted) and proceeds to the session loop. -/
structure HandshakeResult where
  replies : List LanMessage
  registry : Registry
  admitted : Bool

/-- The pre-admission phase of `handle_connection` in `server.rs`
(lines 227–298): wait for one received item; if it is a text frame that
decodes to `Register`, compare tenants — on mismatch reply
`Error{TENANT_MISMATCH}` and return without inserting; on match build
`Registered` with the *pre-insertion* registry size and send it
(`ackSendOk` is whether that send succeeds; a failed send propagates
with `?` and the function returns before inserting). Every other first
item falls through the `if let` chain, and the session is inserted with
the default device type `Kds`. `clientId` is the freshly generated UUID,
`now` the rendered current time, `addrIp` the peer address. -/
def handshake (serverTenant serverId clientId addrIp now : String)
    (ackSendOk : Bool) (firstRecv : Option WsItem) (reg : Registry) :
    HandshakeResult :=
  match firstRecv with
  | some (WsItem.text j) =>
    match decodeLanMessage j with
    | some (LanMessage.register dt clientTenant) =>
      if clientTenant ≠ serverTenant then
        { replies := [LanMessage.error "Tenant ID mismatch" "TENANT_MISMATCH"],
          registry := reg, admitted := false }
      else
        let ack := LanMessage.registered clientId
          ⟨serverId, serverTenant, reg.length, now⟩
        if ackSendOk then
          { replies := [ack],
            registry := insertSession clientId ⟨clientId, dt, now, addrIp⟩ reg,
            admitted := true }
        else
          { replies := [ack], registry := reg, admitted := false }
    | _ =>
      { replies := [],
        registry := insertSession clientId ⟨clientId, DeviceType.kds, now, addrIp⟩ reg,
        admitted := true }
  | _ =>
    { replies := [],
      registry := insertSession clientId ⟨clientId, DeviceType.kds, now, addrIp⟩ reg,
      admitted := true }

/-- `LanServer` from `server.rs`. `subscribers` is the number of live
receivers of `broadcast_tx` (one per running connection task); it is not
a struct field in Rust but the runtime state of the broadcast channel.
`mdns_registered` models `mdns_daemon.is_some()`. -/
structure LanServer where
  port : Nat
  tenant_id : String
  server_id : String
  clients : Registry
  subscribers : Nat
  is_running : Bool
  started_at : String
  local_ip : Option String
  mdns_registered : Bool

/-- `LanServer::stop`: clears the running flag, drops the mDNS daemon and
clears the client map; always returns `Ok(())`. -/
def LanServer.stop (s : LanServer) : Except String Unit × LanServer :=
  (Except.ok (),
   { s with is_running := false, mdns_registered := false, clients := [] })

/-- `LanServer::broadcast`: serialize once and publish on `broadcast_tx`;
`send` errors exactly when there are no receivers, and `unwrap_or(0)`
turns that into a count of 0. -/
def LanServer.broadcast (s : LanServer) (m : LanMessage) : Except String Nat :=
  let _json := encodeLanMessage m
  Except.ok (if s.subscribers = 0 then 0 else s.subscribers)

/-- `LanServer::status`: a snapshot of the server state. -/
def LanServer.statusOf (s : LanServer) : LanServerStatus :=
  { is_running := s.is_running
    port := s.port
    ip_address := s.local_ip
    mdns_registered := s.mdns_registered
    connected_clients := s.clients.map (fun p =>
      { client_id := p.2.client_id, device_type := p.2.device_type,
        connected_at := p.2.connected_at, ip_address := p.2.ip_address })
    started_at := some s.started_at }

/-- Command `stop_lan_server`: stop the server held in the global slot if
any (a stop error would propagate with `?`, leaving the slot occupied),
then clear the slot; succeeds when the slot is empty. -/
def stopLanServer (slot : Option LanServer) :
    Except String Unit × Option LanServer :=
  match slot with
  | some s =>
    match s.stop with
    | (Except.ok _, _) => (Except.ok (), none)
    | (Except.error e, s2) => (Except.error e, some s2)
  | none => (Except.ok (), none)

/-- Command `get_lan_server_status`: with no server instance, a fixed
snapshot (`localIp` is whatever `local_ip_address::local_ip()` reports). -/
def getLanServerStatus (slot : Option LanServer) (localIp : Option String) :
    Except String LanServerStatus :=
  match slot with
  | some s => Except.ok s.statusOf
  | none =>
    Except.ok
      { is_running := false, port := LAN_SYNC_PORT, ip_address := localIp,
        mdns_registered := false, connected_clients := [], started_at := none }

/-- Command `broadcast_order`: wraps the payloads in `OrderCreated` and
broadcasts; errors when no server instance exists. -/
def broadcastOrder (slot : Option LanServer) (order kitchen_order : Json) :
    Except String Nat :=
  match slot with
  | some s => s.broadcast (LanMessage.orderCreated order kitchen_order)
  | none => Except.error "LAN server is not running"

/-- `LanClient` from `client.rs`. `stop_signal` models whether a oneshot
stop sender is currently held (`stop_signal.is_some()`). -/
structure LanClient where
  device_type : DeviceType
  tenant_id : String
  client_id : Option String
  server_address : Option String
  server_info : Option ServerInfo
  is_connected : Bool
  connected_at : Option String
  stop_signal : Bool
  deriving DecidableEq

/-- `LanClient::new`. -/
def LanClient.new (dt : DeviceType) (tid : String) : LanClient :=
  { device_type := dt, tenant_id := tid, client_id := none,
    server_address := none, server_info := none, is_connected := false,
    connected_at := none, stop_signal := false }

/-- The network behaviour seen by one `LanClient::connect` call:
`connectErr` is a failed `connect_async`, `sendErr` a failed send of the
`Register` frame, and `reply` a successful connection together with the
first item received afterwards. -/
inductive ConnectNet where
  | connectErr (e : String) : ConnectNet
  | sendErr (e : String) : ConnectNet
  | reply (r : Option WsItem) : ConnectNet

/-- `LanClient::connect` (`client.rs` lines 106–219): error if already
connected; normalize the URL; connect; send `Register`; wait for exactly
one reply — `Registered` stores `client_id`/`server_info`, `Error`
surfaces a registration failure, anything else is unexpected, no text
reply at all is no response; on success record the address, set the
connected flag and timestamp and install the stop signal. Returns the
`Result` and the client state after the call. -/
def LanClient.connect (c : LanClient) (serverAddress : String)
    (net : ConnectNet) (now : String) : Except String Unit × LanClient :=
  if c.is_connected then
    (Except.error "Already connected to a server", c)
  else
    let url := if serverAddress.startsWith "ws://" || serverAddress.startsWith "wss://"
      then serverAddress else "ws://" ++ serverAddress
    match net with
    | ConnectNet.connectErr e =>
      (Except.error ("Failed to connect to " ++ url ++ ": " ++ e), c)
    | ConnectNet.sendErr e =>
      (Except.error ("Failed to send registration: " ++ e), c)
    | ConnectNet.reply r =>
      match r with
      | some (WsItem.text j) =>
        match decodeLanMessage j with
        | some (LanMessage.registered cid si) =>
          (Except.ok (),
           { c with client_id := some cid, server_info := some si,
                    server_address := some serverAddress, is_connected := true,
                    connected_at := some now, stop_signal := true })
        | some (LanMessage.error m code) =>
          (Except.error ("Registration failed: " ++ m ++ " (" ++ code ++ ")"), c)
        | _ => (Except.error "Unexpected response from server", c)
      | _ => (Except.error "No response from server", c)

/-- `LanClient::disconnect`: take and fire the stop signal, clear the
connected flag and all per-connection fields; always `Ok(())`. -/
def LanClient.disconnect (c : LanClient) : Except String Unit × LanClient :=
  (Except.ok (),
   { c with stop_signal := false, is_connected := false,
            server_address := none, server_info := none,
            client_id := none, connected_at := none })

/-- `LanClient::status`. -/
def LanClient.statusOf (c : LanClient) : LanClientStatus :=
  { is_connected := c.is_connected, server_address := c.server_address,
    server_info := c.server_info, connected_at := c.connected_at,
    device_type := c.device_type }

/-- `str::to_lowercase` as used on the device type string (the strings
compared against are ASCII, where Rust and ASCII lowercasing agree). -/
def toLowerStr (s : String) : String :=
  String.mk (s.data.map Char.toLower)

/-- The device-type parse at the top of `connect_lan_server`:
lowercase the string and accept exactly "kds", "bds" and "manager". -/
def parseDeviceType (s : String) : Option DeviceType :=
  match toLowerStr s with
  | "kds" => some DeviceType.kds
  | "bds" => some DeviceType.bds
  | "manager" => some DeviceType.manager
  | _ => none

/-- The error returned by `connect_lan_server` for an unparsable device
type. -/
def invalidDeviceTypeMsg : String :=
  "Invalid device type. Must be 'kds', 'bds', or 'manager'"

/-- Command `connect_lan_server` (`client.rs` lines 292–321): parse the
device type (error before touching any state); disconnect the existing
client in place if one is held (`disconnect` never fails); build a fresh
client and connect it; on connect error the slot keeps the old —
now disconnected — client; on success the slot holds the new client and
its status is returned. -/
def connectLanServer (slot : Option LanClient)
    (serverAddress deviceTypeStr tenantId : String)
    (net : ConnectNet) (now : String) :
    Except String LanClientStatus × Option LanClient :=
  match parseDeviceType deviceTypeStr with
  | none => (Except.error invalidDeviceTypeMsg, slot)
  | some dt =>
    let slot1 : Option LanClient :=
      match slot with
      | some c => some (c.disconnect).2
      | none => none
    let c := LanClient.new dt tenantId
    match c.connect serverAddress net now with
    | (Except.error e, _) => (Except.error e, slot1)
    | (Except.ok _, c2) => (Except.ok c2.statusOf, some c2)

/-- Command `disconnect_lan_server`: disconnect the client held in the
global slot if any, then clear the slot; succeeds when the slot is empty. -/
def disconnectLanServer (slot : Option LanClient) :
    Except String Unit × Option LanClient :=
  match slot with
  | some c =>
    match c.disconnect with
    | (Except.ok _, _) => (Except.ok (), none)
    | (Except.error e, c2) => (Except.error e, some c2)
  | none => (Except.ok (), none)

/-- Command `get_lan_client_status`: with no client instance, a fixed
snapshot defaulting the device type to `Kds`. -/
def getLanClientStatus (slot : Option LanClient) :
    Except String LanClientStatus :=
  match slot with
  | some c => Except.ok c.statusOf
  | none =>
    Except.ok
      { is_connected := false, server_address := none, server_info := none,
        connected_at := none, device_type := DeviceType.kds }

/-- An event emitted to the local sink (`app_handle.emit`) by the client
inbound dispatch, with the payload built by the `json!` literals in
`handle_message`. -/
inductive SinkEvent where
  | orderCreated (payload : Json) : SinkEvent
  | orderStatusUpdate (payload : Json) : SinkEvent
  | syncState (payload : Json) : SinkEvent

/-- `handle_message` from `client.rs`: forward the three order/state
variants as sink events, consume `Pong` silently, ignore the rest. -/
def handleMessage : LanMessage → List SinkEvent
  | LanMessage.orderCreated o k =>
    [SinkEvent.orderCreated (Json.obj [("order", o), ("kitchenOrder", k)])]
  | LanMessage.orderStatusUpdate oid st ua =>
    [SinkEvent.orderStatusUpdate (Json.obj
      [("orderId", Json.str oid), ("status", Json.str st),
       ("updatedAt", Json.str ua)])]
  | LanMessage.syncState os =>
    [SinkEvent.syncState (Json.obj [("orders", Json.arr os)])]
  | LanMessage.pong => []
  | _ => []

/-- One pass of the receive branch of the client session loop
(`client.rs` lines 197–210): a text frame is decoded and dispatched when
it decodes (a decode failure is silently ignored), a close frame or end
of stream breaks the loop, any other frame or receive error is ignored.
Returns the events emitted and whether the loop continues. -/
def inboundStep (r : Option WsItem) : List SinkEvent × Bool :=
  match r with
  | some (WsItem.text j) =>
    match decodeLanMessage j with
    | some m => (handleMessage m, true)
    | none => ([], true)
  | some WsItem.close => ([], false)
  | none => ([], false)
  | some WsItem.other => ([], true)
  | some WsItem.failed => ([], true)

/-- Whether a decoded message is a `Register` (the pattern tested by the
handshake's `if let`). -/
def isRegisterMsg : Option LanMessage → Bool
  | some (LanMessage.register _ _) => true
  | _ => false

/-- A concrete running server with two registered sessions, each holding a
live broadcast subscription. -/
def sampleServer : LanServer :=
  { port := 3847, tenant_id := "tenant-a", server_id := "srv-1",
    clients := [("c-0", ⟨"c-0", DeviceType.kds, "2026-01-01T00:00:00Z", "10.0.0.2"⟩),
                ("c-1", ⟨"c-1", DeviceType.bds, "2026-01-01T00:00:00Z", "10.0.0.3"⟩)],
    subscribers := 2, is_running := true,
    started_at := "2026-01-01T00:00:00Z", local_ip := some "10.0.0.5",
    mdns_registered := true }

/-- A concrete client in the `Connected` state. -/
def connectedClient : LanClient :=
  { device_type := DeviceType.kds, tenant_id := "tenant-a",
    client_id := some "c-0", server_address := some "10.0.0.5:3847",
    server_info := some ⟨"srv-1", "tenant-a", 0, "2026-01-01T00:00:00Z"⟩,
    is_connected := true, connected_at := some "2026-01-01T00:00:00Z",
    stop_signal := true }

/-- A network behaviour whose server answers the registration with a
concrete `Registered` message. -/
def okNet : ConnectNet :=
  ConnectNet.reply (some (WsItem.text (encodeLanMessage
    (LanMessage.registered "c-9" ⟨"srv-2", "tenant-a", 1, "2026-01-01T00:01:00Z"⟩))))

end LanSync

namespace LanSync

/-- Decoding inverts encoding (shared helper for the claims below). -/
lemma decode_encode_eq (m : LanMessage) :
    decodeLanMessage (encodeLanMessage m) = some m := by
  cases m
  case register dt tid => cases dt <;> rfl
  all_goals rfl

/-- Every `LanServer::broadcast` call succeeds, returning the number of
live subscribers of the broadcast channel. -/
lemma broadcast_eq (s : LanServer) (m : LanMessage) :
    s.broadcast m = Except.ok s.subscribers := by
  show Except.ok (if s.subscribers = 0 then 0 else s.subscribers)
      = Except.ok s.subscribers
  congr 1
  split <;> omega

/-- C5: decode ∘ encode is the identity on every constructible `LanMessage`:
each of the eight tagged variants round-trips through the wire form. -/
theorem lan_message_roundtrip (m : LanMessage) :
    decodeLanMessage (encodeLanMessage m) = some m :=
  decode_encode_eq m

/-- C1: a first message that is a `Register` with a tenant different from
the server's own is answered with `Error{code="TENANT_MISMATCH"}` and the
registry is returned unchanged: no session is inserted for that
connection. -/
theorem handshake_tenant_mismatch
    (t sid cid ip now : String) (ok : Bool) (reg : Registry)
    (j : Json) (dt : DeviceType) (ct : String)
    (hdec : decodeLanMessage j = some (LanMessage.register dt ct))
    (hne : ct ≠ t) :
    handshake t sid cid ip now ok (some (WsItem.text j)) reg =
      { replies := [LanMessage.error "Tenant ID mismatch" "TENANT_MISMATCH"],
        registry := reg, admitted := false } := by
  simp [handshake, hdec, hne]

/-- Witness for C1 at a concrete mismatched registration. -/
theorem handshake_tenant_mismatch_witness :
    decodeLanMessage (encodeLanMessage (LanMessage.register DeviceType.bds "tenant-b"))
        = some (LanMessage.register DeviceType.bds "tenant-b")
  ∧ "tenant-b" ≠ "tenant-a"
  ∧ handshake "tenant-a" "srv-1" "c-1" "10.0.0.7" "2026-01-01T00:00:00Z" true
      (some (WsItem.text (encodeLanMessage (LanMessage.register DeviceType.bds "tenant-b")))) []
      = { replies := [LanMessage.error "Tenant ID mismatch" "TENANT_MISMATCH"],
          registry := [], admitted := false } :=
  ⟨rfl, by decide,
   handshake_tenant_mismatch "tenant-a" "srv-1" "c-1" "10.0.0.7"
     "2026-01-01T00:00:00Z" true [] _ DeviceType.bds "tenant-b" rfl (by decide)⟩

/-- C2 fails on the code: a first message that is not a `Register` (here a
`Ping`) is NOT answered with `Error{TENANT_MISMATCH}`, and the registry
does NOT stay empty — the session is inserted anyway. -/
theorem handshake_nonregister_counterexample :
    ¬ ((handshake "tenant-a" "srv-1" "c-2" "10.0.0.8" "2026-01-01T00:00:01Z" true
          (some (WsItem.text (encodeLanMessage LanMessage.ping))) []).replies
        = [LanMessage.error "Tenant ID mismatch" "TENANT_MISMATCH"]
      ∧ (handshake "tenant-a" "srv-1" "c-2" "10.0.0.8" "2026-01-01T00:00:01Z" true
          (some (WsItem.text (encodeLanMessage LanMessage.ping))) []).registry
        = ([] : Registry)) := by
  intro h
  exact List.cons_ne_nil _ _ h.1.symm

/-- C2 (amended): only a `Register` first message can be rejected. When
the first text frame does not decode to a `Register` (another variant or
an undecodable payload), the server sends no reply at all and the
connection is admitted anyway: a session with the default device type
`Kds` is inserted into the registry. -/
theorem handshake_nonregister_admitted
    (t sid cid ip now : String) (reg : Registry) (j : Json)
    (h : isRegisterMsg (decodeLanMessage j) = false) :
    handshake t sid cid ip now true (some (WsItem.text j)) reg =
      { replies := [],
        registry := insertSession cid ⟨cid, DeviceType.kds, now, ip⟩ reg,
        admitted := true } := by
  cases hd : decodeLanMessage j
  case none => simp [handshake, hd]
  case some m =>
    cases m
    case register dt ct =>
      rw [hd] at h
      simp [isRegisterMsg] at h
    all_goals simp [handshake, hd]

/-- Witness for the amended C2 at a concrete non-register first message. -/
theorem handshake_nonregister_admitted_witness :
    isRegisterMsg (decodeLanMessage (encodeLanMessage LanMessage.pong)) = false
  ∧ handshake "tenant-a" "srv-1" "c-3" "10.0.0.9" "2026-01-01T00:00:02Z" true
      (some (WsItem.text (encodeLanMessage LanMessage.pong))) []
      = { replies := [],
          registry := insertSession "c-3"
            ⟨"c-3", DeviceType.kds, "2026-01-01T00:00:02Z", "10.0.0.9"⟩ [],
          admitted := true } :=
  ⟨rfl,
   handshake_nonregister_admitted "tenant-a" "srv-1" "c-3" "10.0.0.9"
     "2026-01-01T00:00:02Z" [] _ rfl⟩

/-- C3: a `Register` with the matching tenant is answered with
`Registered` whose `ServerInfo.connected_clients` is the registry size
*before* admission (the connecting client never counts itself), the
session is inserted only afterwards, and if the `Registered` send fails
the session is never inserted at all. -/
theorem handshake_registered_pre_insertion
    (t sid cid ip now : String) (reg : Registry) (j : Json) (dt : DeviceType)
    (hdec : decodeLanMessage j = some (LanMessage.register dt t)) :
    handshake t sid cid ip now true (some (WsItem.text j)) reg =
      { replies := [LanMessage.registered cid
          { server_id := sid, tenant_id := t,
            connected_clients := reg.length, server_time := now }],
        registry := insertSession cid ⟨cid, dt, now, ip⟩ reg,
        admitted := true }
  ∧ (handshake t sid cid ip now false (some (WsItem.text j)) reg).registry
      = reg := by
  constructor <;> simp [handshake, hdec]

/-- Witness for C3: with one session already registered the reply counts
exactly that one session, not the connecting client. -/
theorem handshake_registered_pre_insertion_witness :
    decodeLanMessage (encodeLanMessage (LanMessage.register DeviceType.kds "tenant-a"))
        = some (LanMessage.register DeviceType.kds "tenant-a")
  ∧ handshake "tenant-a" "srv-1" "c-4" "10.0.0.4" "2026-01-01T00:00:03Z" true
      (some (WsItem.text (encodeLanMessage (LanMessage.register DeviceType.kds "tenant-a"))))
      [("c-0", ⟨"c-0", DeviceType.pos, "2026-01-01T00:00:00Z", "10.0.0.2"⟩)]
      = { replies := [LanMessage.registered "c-4"
            { server_id := "srv-1", tenant_id := "tenant-a",
              connected_clients := 1, server_time := "2026-01-01T00:00:03Z" }],
          registry := insertSession "c-4"
            ⟨"c-4", DeviceType.kds, "2026-01-01T00:00:03Z", "10.0.0.4"⟩
            [("c-0", ⟨"c-0", DeviceType.pos, "2026-01-01T00:00:00Z", "10.0.0.2"⟩)],
          admitted := true }
  ∧ (handshake "tenant-a" "srv-1" "c-4" "10.0.0.4" "2026-01-01T00:00:03Z" false
      (some (WsItem.text (encodeLanMessage (LanMessage.register DeviceType.kds "tenant-a"))))
      [("c-0", ⟨"c-0", DeviceType.pos, "2026-01-01T00:00:00Z", "10.0.0.2"⟩)]).registry
      = [("c-0", ⟨"c-0", DeviceType.pos, "2026-01-01T00:00:00Z", "10.0.0.2"⟩)] :=
  ⟨rfl,
   (handshake_registered_pre_insertion "tenant-a" "srv-1" "c-4" "10.0.0.4"
     "2026-01-01T00:00:03Z" [("c-0", ⟨"c-0", DeviceType.pos, "2026-01-01T00:00:00Z", "10.0.0.2"⟩)]
     (encodeLanMessage (LanMessage.register DeviceType.kds "tenant-a"))
     DeviceType.kds rfl).1,
   (handshake_registered_pre_insertion "tenant-a" "srv-1" "c-4" "10.0.0.4"
     "2026-01-01T00:00:03Z" [("c-0", ⟨"c-0", DeviceType.pos, "2026-01-01T00:00:00Z", "10.0.0.2"⟩)]
     (encodeLanMessage (LanMessage.register DeviceType.kds "tenant-a"))
     DeviceType.kds rfl).2⟩

end LanSync

namespace LanSync

/-- C4: `broadcast` errors with the server-not-running message when no
server instance exists; with a server it always succeeds, and when the N
registered sessions each hold a live (non-lagged) subscription the
delivered count is exactly N, the registry size. -/
theorem broadcast_delivered_count (o k : Json) (s : LanServer) (m : LanMessage)
    (h : s.subscribers = s.clients.length) :
    broadcastOrder none o k = Except.error "LAN server is not running"
  ∧ (∃ n, s.broadcast m = Except.ok n)
  ∧ s.broadcast m = Except.ok s.clients.length
  ∧ broadcastOrder (some s) o k = Except.ok s.clients.length := by
  refine ⟨rfl, ⟨s.subscribers, broadcast_eq s m⟩, ?_, ?_⟩
  · rw [broadcast_eq, h]
  · show s.broadcast (LanMessage.orderCreated o k) = _
    rw [broadcast_eq, h]

/-- Witness for C4: two registered sessions, delivered count 2; with no
server instance, the not-running error. -/
theorem broadcast_delivered_count_witness :
    sampleServer.subscribers = sampleServer.clients.length
  ∧ broadcastOrder (some sampleServer) Json.null Json.null = Except.ok 2
  ∧ broadcastOrder none Json.null Json.null
      = Except.error "LAN server is not running" :=
  ⟨rfl,
   (broadcast_delivered_count Json.null Json.null sampleServer
     (LanMessage.orderCreated Json.null Json.null) rfl).2.2.2,
   (broadcast_delivered_count Json.null Json.null sampleServer
     (LanMessage.orderCreated Json.null Json.null) rfl).1⟩

/-- C6 fails on the code at the command level: with a connected client in
the slot and a server that acknowledges registration, `connect_lan_server`
does not error and does not leave the state unchanged — it disconnects the
held client and replaces it. -/
theorem connect_when_connected_counterexample :
    ¬ ((∃ e, (connectLanServer (some connectedClient) "10.0.0.6:3847" "kds"
            "tenant-a" okNet "2026-01-01T00:01:00Z").1 = Except.error e)
      ∧ (connectLanServer (some connectedClient) "10.0.0.6:3847" "kds"
            "tenant-a" okNet "2026-01-01T00:01:00Z").2 = some connectedClient) := by
  intro h
  rcases h.1 with ⟨e, he⟩
  have hok : (connectLanServer (some connectedClient) "10.0.0.6:3847" "kds"
      "tenant-a" okNet "2026-01-01T00:01:00Z").1
      = Except.ok { is_connected := true, server_address := some "10.0.0.6:3847",
                    server_info := some ⟨"srv-2", "tenant-a", 1, "2026-01-01T00:01:00Z"⟩,
                    connected_at := some "2026-01-01T00:01:00Z",
                    device_type := DeviceType.kds } := rfl
  rw [hok] at he
  exact Except.noConfusion he

/-- C6 (amended): `LanClient::connect` errors with "Already connected to a
server" and leaves the client unchanged when that instance is already
connected; the command `connect_lan_server`, however, never takes that
path — it disconnects any held client first and proceeds with a fresh
one, so with a successful handshake it returns Ok and replaces the
connection instead of erroring. -/
theorem connect_when_connected
    (c : LanClient) (addr now : String) (net : ConnectNet)
    (hc : c.is_connected = true) :
    c.connect addr net now = (Except.error "Already connected to a server", c)
  ∧ ∀ (c2 : LanClient) (addr2 tid now2 cid : String) (si : ServerInfo),
      connectLanServer (some c2) addr2 "kds" tid
        (ConnectNet.reply (some (WsItem.text (encodeLanMessage
          (LanMessage.registered cid si))))) now2
      = (Except.ok { is_connected := true, server_address := some addr2,
                     server_info := some si, connected_at := some now2,
                     device_type := DeviceType.kds },
         some { device_type := DeviceType.kds, tenant_id := tid,
                client_id := some cid, server_address := some addr2,
                server_info := some si, is_connected := true,
                connected_at := some now2, stop_signal := true }) := by
  constructor
  · simp [LanClient.connect, hc]
  · intro c2 addr2 tid now2 cid si
    have hp : parseDeviceType "kds" = some DeviceType.kds := by decide
    simp [connectLanServer, hp, LanClient.connect, LanClient.new,
          decode_encode_eq, LanClient.statusOf]

/-- Witness for the amended C6 at a concrete connected client. -/
theorem connect_when_connected_witness :
    connectedClient.is_connected = true
  ∧ connectedClient.connect "10.0.0.6:3847" (ConnectNet.reply none)
      "2026-01-01T00:01:00Z"
      = (Except.error "Already connected to a server", connectedClient)
  ∧ (connectLanServer (some connectedClient) "10.0.0.6:3847" "kds" "tenant-a"
      okNet "2026-01-01T00:01:00Z").1
      = Except.ok { is_connected := true, server_address := some "10.0.0.6:3847",
                    server_info := some ⟨"srv-2", "tenant-a", 1, "2026-01-01T00:01:00Z"⟩,
                    connected_at := some "2026-01-01T00:01:00Z",
                    device_type := DeviceType.kds } :=
  ⟨rfl,
   (connect_when_connected connectedClient "10.0.0.6:3847" "2026-01-01T00:01:00Z"
     (ConnectNet.reply none) rfl).1,
   congrArg Prod.fst
     ((connect_when_connected connectedClient "10.0.0.6:3847" "2026-01-01T00:01:00Z"
        (ConnectNet.reply none) rfl).2 connectedClient "10.0.0.6:3847" "tenant-a"
        "2026-01-01T00:01:00Z" "c-9" ⟨"srv-2", "tenant-a", 1, "2026-01-01T00:01:00Z"⟩)⟩

/-- C7: `stop_lan_server` twice in a row and `disconnect_lan_server` twice
in a row never error; each call succeeds, and both calls leave the same
terminal state: the global slot cleared. -/
theorem stop_disconnect_idempotent
    (sslot : Option LanServer) (cslot : Option LanClient) :
    ((stopLanServer sslot).1 = Except.ok ()
      ∧ (stopLanServer sslot).2 = none
      ∧ stopLanServer (stopLanServer sslot).2
          = (Except.ok (), (none : Option LanServer)))
  ∧ ((disconnectLanServer cslot).1 = Except.ok ()
      ∧ (disconnectLanServer cslot).2 = none
      ∧ disconnectLanServer (disconnectLanServer cslot).2
          = (Except.ok (), (none : Option LanClient))) := by
  constructor
  · cases sslot <;> simp [stopLanServer, LanServer.stop]
  · cases cslot <;> simp [disconnectLanServer, LanClient.disconnect]

/-- C8: on any inbound text frame the session loop never terminates; the
three order/state variants are forwarded to the local sink with their
`json!` payloads, `Pong` produces no event, every other variant and every
unknown or undecodable discriminant produces no event and no error. -/
theorem client_inbound_dispatch (j : Json) :
    (inboundStep (some (WsItem.text j))).2 = true
  ∧ (inboundStep (some (WsItem.text j))).1 =
      (match decodeLanMessage j with
       | some (LanMessage.orderCreated o k) =>
         [SinkEvent.orderCreated (Json.obj [("order", o), ("kitchenOrder", k)])]
       | some (LanMessage.orderStatusUpdate oid st ua) =>
         [SinkEvent.orderStatusUpdate (Json.obj
           [("orderId", Json.str oid), ("status", Json.str st),
            ("updatedAt", Json.str ua)])]
       | some (LanMessage.syncState os) =>
         [SinkEvent.syncState (Json.obj [("orders", Json.arr os)])]
       | _ => []) := by
  constructor
  · cases hd : decodeLanMessage j <;> simp [inboundStep, hd]
  · cases hd : decodeLanMessage j
    case none => simp [inboundStep, hd]
    case some m => cases m <;> simp [inboundStep, hd, handleMessage]

/-- C9: the status commands never error without an instance: the server
status reports not running on the fixed well-known port 3847 with no
clients, and the client status reports not connected with device type
defaulting to `Kds` and every optional field absent. -/
theorem status_without_instance (localIp : Option String) :
    getLanServerStatus none localIp =
      Except.ok { is_running := false, port := LAN_SYNC_PORT,
                  ip_address := localIp, mdns_registered := false,
                  connected_clients := [], started_at := none }
  ∧ getLanClientStatus none =
      Except.ok { is_connected := false, server_address := none,
                  server_info := none, connected_at := none,
                  device_type := DeviceType.kds }
  ∧ LAN_SYNC_PORT = 3847 :=
  ⟨rfl, rfl, rfl⟩

/-- C10: the command-level connect accepts exactly the case-insensitive
device type strings kds, bds and manager; any other string — "pos"
included — is rejected with the invalid-device-type error before any
state change, so the slot (and any connected client in it) is untouched. -/
theorem connect_invalid_device_type
    (slot : Option LanClient) (addr tid now s : String) (net : ConnectNet)
    (h : parseDeviceType s = none) :
    connectLanServer slot addr s tid net now
      = (Except.error invalidDeviceTypeMsg, slot)
  ∧ parseDeviceType "pos" = none
  ∧ parseDeviceType "KDS" = some DeviceType.kds
  ∧ parseDeviceType "Bds" = some DeviceType.bds
  ∧ parseDeviceType "MANAGER" = some DeviceType.manager := by
  refine ⟨?_, by decide, by decide, by decide, by decide⟩
  simp [connectLanServer, h]

/-- Witness for C10: connecting with device type "pos" while a client is
connected errors and leaves the slot, with its connected client, as it
was. -/
theorem connect_invalid_device_type_witness :
    parseDeviceType "pos" = none
  ∧ connectLanServer (some connectedClient) "10.0.0.6:3847" "pos" "tenant-a"
      (ConnectNet.reply none) "2026-01-01T00:01:00Z"
      = (Except.error invalidDeviceTypeMsg, some connectedClient) :=
  ⟨by decide,
   (connect_invalid_device_type (some connectedClient) "10.0.0.6:3847" "tenant-a"
     "2026-01-01T00:01:00Z" "pos" (ConnectNet.reply none) (by decide)).1⟩

end LanSync
